import Mathlib

/-!
Verification of `src/regression_model/blstm_AlphaSeq_tapes.py` (covid_Ab_ML).

The Python script is shallowly embedded: pure computations become Lean
functions, the observable effects of a call (lines printed to stdout and
stderr, `sys.exit`, uncaught exceptions, return value) become an explicit
`Outcome` record, and the training loop becomes explicit state passing.
Machine floats are modelled as rationals; the external numeric engine,
the pretrained TAPE encoder and its tokenizer are modelled at the
interface the spec ascribes to them.
-/

/-- Result of running a piece of Python code: a normal return value, a
`sys.exit(code)` termination, or an uncaught exception (named by its
Python class). -/
inductive PyResult (α : Type) : Type where
  | ok : α → PyResult α
  | exited : Nat → PyResult α
  | raised : String → PyResult α
deriving DecidableEq

/-- Observable outcome of a call: the lines printed to standard output,
the lines printed to the error stream, and the `PyResult`. -/
structure Outcome (α : Type) : Type where
  stdout : List String
  stderr : List String
  result : PyResult α
deriving DecidableEq

/-- A tensor as a rose tree of rational scalars (nested `torch` dimensions). -/
inductive Tensor : Type where
  | scalar : ℚ → Tensor
  | stack : List Tensor → Tensor

/-- Shape of a (regular) tensor, read off along the leftmost path, as
`torch.Tensor.shape` reports it. -/
def tshape : Tensor → List ℕ
  | .scalar _ => []
  | .stack [] => [0]
  | .stack (t :: ts) => (ts.length + 1) :: tshape t

/-- Size of the leading dimension of a tensor (0 for a scalar). -/
def leadingDim (t : Tensor) : ℕ := (tshape t).headD 0

mutual
/-- `torch.squeeze`: removes every dimension of size 1. -/
def squeeze : Tensor → Tensor
  | .scalar q => .scalar q
  | .stack [t] => squeeze t
  | .stack ts => .stack (squeezeList ts)

/-- `squeeze` mapped over the children of a dimension of size ≠ 1. -/
def squeezeList : List Tensor → List Tensor
  | [] => []
  | t :: ts => squeeze t :: squeezeList ts
end

/-- Modelled from the spec: the external TAPE tokenizer (out of scope in
`src/`) maps a single sequence character to its integer token id, failing
(Python `KeyError`) on a character outside the vocabulary.  The vocabulary
is a list of characters; the id is the character's position in it. -/
def tokenId : List Char → Char → Option ℕ
  | [], _ => none
  | v :: vs, c => if c = v then some 0 else (tokenId vs c).map (· + 1)

/-- Modelled from the spec: `tape_tokenizer.encode(seq)` converts the raw
sequence to a list of integer token ids, one id per character (the spec's
padding arithmetic `max_len - len(seq)` presumes token count = character
count; the spec flags any tokenizer-added boundary markers as an open
question, so none are modelled).  An untokenizable character raises
`KeyError`, modelled as `none`. -/
def encode (vocab : List Char) : List Char → Option (List ℕ)
  | [] => some []
  | c :: cs =>
    match tokenId vocab c, encode vocab cs with
    | some t, some ts => some (t :: ts)
    | _, _ => none

/-- `np.pad(_token, (0, max_len - len(seq)), 'constant')`: right-pads the
token ids with the constant pad value 0 up to `max_len` positions
(when `len(seq) ≤ max_len` and one token per character). -/
def padded_token (max_len seqLen : ℕ) (tok : List ℕ) : List ℕ :=
  tok ++ List.replicate (max_len - seqLen) 0

/-- `nn.functional.one_hot` with default `num_classes=-1` infers the class
count as the largest entry of the input tensor plus one. -/
def numClasses (tss : List (List ℕ)) : ℕ :=
  (tss.map fun row => row.foldr max 0).foldr max 0 + 1

/-- The row of class indicators for token id `v` over `C` classes:
entry `j` is 1 if `j = v` and 0 otherwise. -/
def indicatorRow (C v : ℕ) : List ℚ :=
  (List.range C).map fun j => if v = j then 1 else 0

/-- `nn.functional.one_hot(token)` on a rank-2 integer tensor `tss`
(shape `[batch, positions]`): produces a rank-3 tensor of shape
`[batch, positions, numClasses tss]` of 0/1 indicators. -/
def oneHotTensor (tss : List (List ℕ)) : Tensor :=
  .stack (tss.map fun row =>
    .stack (row.map fun v => .stack ((indicatorRow (numClasses tss) v).map .scalar)))

/-- Modelled from the spec: the frozen pretrained TAPE encoder
(`self.tape_model`, out of scope in `src/`) returns one contextual
embedding vector of `hidden` entries per input token position, keeping the
batch dimension; the numeric values are abstracted by the parameter `f`
(position, coordinate ↦ value). -/
def tape_model (hidden : ℕ) (f : ℕ → ℕ → ℚ) (batch : List (List ℕ)) : Tensor :=
  .stack (batch.map fun row =>
    .stack ((List.range row.length).map fun i =>
      .stack ((List.range hidden).map fun j => .scalar (f i j))))

/-- `Transformer._embed_tape`: encodes the sequence (outside the `try`
block, so a `KeyError` propagates uncaught), computes
`pad_len = max_len - len(seq)` and pads.  If `np.pad` raises `ValueError`
(negative pad width) the handler prints `len(_token)`, `len(seq)` and
`_token` to standard output and execution falls through the `except`
block; the local `token` was never assigned, so the subsequent
`self.tape_model(token)` raises an uncaught `UnboundLocalError`.
Otherwise the padded ids go through the frozen encoder under
`torch.no_grad()` and the sequence-level embedding is returned squeezed.
Numpy reprs in the diagnostic prints are abstracted by `toString`. -/
def embed_tape (hidden : ℕ) (f : ℕ → ℕ → ℚ) (vocab : List Char)
    (max_len : ℕ) (seq : List Char) : Outcome Tensor :=
  match encode vocab seq with
  | none => ⟨[], [], .raised "KeyError"⟩
  | some tok =>
    if (max_len : ℤ) - seq.length < 0 then
      ⟨[toString tok.length, toString seq.length, toString tok], [],
        .raised "UnboundLocalError"⟩
    else
      ⟨[], [], .ok (squeeze (tape_model hidden f [padded_token max_len seq.length tok]))⟩

/-- `Transformer._embed_one_hot`: encodes the sequence (outside the `try`
block, so a `KeyError` from the tokenizer propagates uncaught and the
`except KeyError` handler — print `Unknown key` to stderr, `sys.exit(1)` —
never runs), pads by `max_len - len(seq)` (a negative pad width makes
`np.pad` raise `ValueError`, which the `except KeyError` clause does not
catch), and applies `nn.functional.one_hot` to the rank-2 tensor
`[padded_token]`; the result is returned without squeezing. -/
def embed_one_hot (vocab : List Char) (max_len : ℕ) (seq : List Char) :
    Outcome Tensor :=
  match encode vocab seq with
  | none => ⟨[], [], .raised "KeyError"⟩
  | some tok =>
    if (max_len : ℤ) - seq.length < 0 then
      ⟨[], [], .raised "ValueError"⟩
    else
      ⟨[], [], .ok (oneHotTensor [padded_token max_len seq.length tok])⟩

/-- The two embedding strategies accepted by `Transformer.__init__`
(an unrecognized method name exits at construction time, so a constructed
`Transformer` carries one of these two). -/
inductive Method : Type where
  | one_hot : Method
  | tape : Method
deriving DecidableEq

/-- `Transformer`: the embedding strategy plus its construction-time
resources (vocabulary for the tokenizer; hidden size and abstract values
of the pretrained encoder for the tape strategy). -/
structure Transformer : Type where
  method : Method
  hidden : ℕ
  f : ℕ → ℕ → ℚ
  vocab : List Char

/-- `Transformer.embed(max_len, seq)`: dispatch on the configured method. -/
def Transformer.embed (t : Transformer) (max_len : ℕ) (seq : List Char) :
    Outcome Tensor :=
  match t.method with
  | .one_hot => embed_one_hot t.vocab max_len seq
  | .tape => embed_tape t.hidden t.f t.vocab max_len seq

/-- Python list indexing semantics: a non-negative index reads position
`idx` (IndexError when past the end); a negative index reads position
`len + idx` (IndexError when that is still negative). `none` models the
raised `IndexError`. -/
def pyIndex {α : Type} (xs : List α) (idx : ℤ) : Option α :=
  if 0 ≤ idx then xs.get? idx.toNat
  else if 0 ≤ idx + xs.length then xs.get? (idx + xs.length).toNat
  else none

/-- The diagnostic `AlphpaSeqDataset.__getitem__` prints to the error
stream when list indexing raises `IndexError`:
`f'List index out of range: {idx}, length: {len(self.labels)}.'`. -/
def indexErrLine (idx : ℤ) (n : ℕ) : String :=
  "List index out of range: " ++ toString idx ++ ", length: " ++ toString n ++ "."

/-- `AlphpaSeqDataset` (source spelling kept): the three parallel lists
loaded from the csv (`labels`, `seqs`, `log10_ka`), the derived
`_longest_seq`, and the owned `Transformer`.  Targets (`np.float32`)
are modelled as rationals. -/
structure AlphpaSeqDataset : Type where
  labels : List String
  seqs : List (List Char)
  log10_ka : List ℚ
  longest_seq : ℕ
  transformer : Transformer

/-- `AlphpaSeqDataset.__len__`. -/
def AlphpaSeqDataset.len (ds : AlphpaSeqDataset) : ℕ := ds.labels.length

/-- `AlphpaSeqDataset.__getitem__(idx)`: inside a `try` block it embeds
`self.seqs[idx]` with `self._longest_seq` and returns
`(self.labels[idx], features, self.log10_ka[idx])`; an `IndexError` from
any of the three list accesses is caught, the `indexErrLine` diagnostic is
printed to the error stream, and the process exits with status 1.
`sys.exit` inside the embedder (a `SystemExit`) and other exceptions
(`KeyError`, `ValueError`, `UnboundLocalError`) are not `IndexError` and
propagate out of the `except IndexError` clause unchanged. -/
def AlphpaSeqDataset.getitem (ds : AlphpaSeqDataset) (idx : ℤ) :
    Outcome (String × Tensor × ℚ) :=
  match pyIndex ds.seqs idx with
  | none => ⟨[], [indexErrLine idx ds.labels.length], .exited 1⟩
  | some seq =>
    let e := ds.transformer.embed ds.longest_seq seq
    match e.result with
    | .ok features =>
      match pyIndex ds.labels idx, pyIndex ds.log10_ka idx with
      | some lab, some ka => ⟨e.stdout, e.stderr, .ok (lab, features, ka)⟩
      | _, _ => ⟨e.stdout, e.stderr ++ [indexErrLine idx ds.labels.length], .exited 1⟩
    | .exited c => ⟨e.stdout, e.stderr, .exited c⟩
    | .raised exn => ⟨e.stdout, e.stderr, .raised exn⟩

/-- `DataLoader(ds, batch_size=bs, shuffle=True)` batching: the (already
shuffled) samples are grouped into `ceil(len / bs)` consecutive batches of
`bs` items each, the last batch possibly shorter (default
`drop_last=False`).  `bs = 0` is rejected with an error by the real
loader, so its value here is never relied on. -/
def chunkList {α : Type} (bs : ℕ) (xs : List α) : List (List α) :=
  (List.range ((xs.length + bs - 1) / bs)).map fun i => (xs.drop (i * bs)).take bs

/-- The external collaborators of `run_lstm`, abstracted at the interface
the spec gives them: the optimizer construction
(`torch.optim.SGD(model.parameters(), L_RATE)` → `optInit`), one
`zero_grad`/`backward`/`optimizer.step()` update on a batch (`step`),
the summed-MSE batch loss `loss_fn(model(feature), target)` of the current
parameters on a batch (`lossOf`), and the shuffle the `DataLoader` applies
at each (epoch, split) (`rng`). -/
structure LoopCfg (P O S : Type) : Type where
  optInit : O
  step : P → O → List S → P × O
  lossOf : P → List S → ℚ
  rng : ℕ → Bool → List S → List S

/-- The local mutable variables of one epoch of `run_lstm`: the model's
learnable parameters, the optimizer's internal state, and the two loss
accumulators (reset to 0 at the top of each epoch). -/
structure EpochVars (P O : Type) : Type where
  params : P
  opt : O
  train_loss : ℚ
  test_loss : ℚ

/-- The dictionary `torch.save` writes: epoch index, model parameters,
optimizer state, at a target path. -/
structure Checkpoint (P O : Type) : Type where
  path : String
  epoch : ℕ
  model_state_dict : P
  optimizer_state_dict : O

/-- `save_model(model, optimizer, epoch, save_as)`: serializes the
checkpoint dictionary to `save_as`. -/
def save_model {P O : Type} (p : P) (o : O) (epoch : ℕ) (save_as : String) :
    Checkpoint P O :=
  ⟨save_as, epoch, p, o⟩

/-- The state `run_lstm` threads across epochs: parameters, optimizer
state, the two loss histories, and the ordered log of checkpoint writes
(the file-system effect of `save_model`). -/
structure RunState (P O : Type) : Type where
  params : P
  opt : O
  train_loss_history : List ℚ
  test_loss_history : List ℚ
  writes : List (Checkpoint P O)

/-- The train batches of one epoch:
`DataLoader(train_set, batch_size=BATCH_SIZE, shuffle=True)` — note the
loader is built from the module-level global `BATCH_SIZE` (`g`), not from
`run_lstm`'s `batch_size` parameter. -/
def train_batches {P O S : Type} (g : ℕ) (cfg : LoopCfg P O S)
    (train_set : List S) (epoch : ℕ) : List (List S) :=
  chunkList g (cfg.rng epoch true train_set)

/-- The test batches of one epoch:
`DataLoader(test_set, batch_size=BATCH_SIZE, shuffle=True)` — again from
the global `BATCH_SIZE` (`g`). -/
def test_batches {P O S : Type} (g : ℕ) (cfg : LoopCfg P O S)
    (test_set : List S) (epoch : ℕ) : List (List S) :=
  chunkList g (cfg.rng epoch false test_set)

/-- Body of the training batch loop: `optimizer.zero_grad()`, forward
pass, summed-MSE batch loss, `train_loss += batch_loss.item()`,
`batch_loss.backward()`, `optimizer.step()` (the loss is computed from the
parameters before the update). -/
def train_batch_body {P O S : Type} (cfg : LoopCfg P O S)
    (v : EpochVars P O) (b : List S) : EpochVars P O :=
  let bl := cfg.lossOf v.params b
  let po := cfg.step v.params v.opt b
  ⟨po.1, po.2, v.train_loss + bl, v.test_loss⟩

/-- Body of the test batch loop: under `torch.no_grad()`, forward pass and
`test_loss += batch_loss.item()` only — no gradient, no optimizer call. -/
def test_batch_body {P O S : Type} (cfg : LoopCfg P O S)
    (v : EpochVars P O) (b : List S) : EpochVars P O :=
  ⟨v.params, v.opt, v.train_loss, v.test_loss + cfg.lossOf v.params b⟩

/-- The whole test pass of one epoch: the test batch loop folded over the
test loader's batches. -/
def test_pass {P O S : Type} (cfg : LoopCfg P O S) (v : EpochVars P O)
    (bs : List (List S)) : EpochVars P O :=
  bs.foldl (test_batch_body cfg) v

/-- One iteration of `for epoch in range(1, n_epochs + 1)`: reset the two
loss accumulators, rebuild both loaders, run the training batch loop then
the test batch loop, append both accumulated losses to the histories, and
checkpoint to `save_as + '.model_save'` unconditionally. -/
def runEpoch {P O S : Type} (g : ℕ) (cfg : LoopCfg P O S)
    (train_set test_set : List S) (save_as : String) (epoch : ℕ)
    (st : RunState P O) : RunState P O :=
  let v1 := (train_batches g cfg train_set epoch).foldl (train_batch_body cfg)
    ⟨st.params, st.opt, 0, 0⟩
  let v2 := test_pass cfg v1 (test_batches g cfg test_set epoch)
  ⟨v2.params, v2.opt,
    st.train_loss_history ++ [v2.train_loss],
    st.test_loss_history ++ [v2.test_loss],
    st.writes ++ [save_model v2.params v2.opt epoch (save_as ++ ".model_save")]⟩

/-- The state entering epoch 1: the model as passed in, a fresh SGD
optimizer, empty histories, nothing written. -/
def lstm_init {P O S : Type} (cfg : LoopCfg P O S) (p0 : P) : RunState P O :=
  ⟨p0, cfg.optInit, [], [], []⟩

/-- The state of `run_lstm` after its first `n` epochs, given the resolved
value `g` of the global `BATCH_SIZE`. -/
def lstm_run {P O S : Type} (g : ℕ) (cfg : LoopCfg P O S)
    (train_set test_set : List S) (save_as : String) (p0 : P) (n : ℕ) :
    RunState P O :=
  (List.range n).foldl
    (fun st i => runEpoch g cfg train_set test_set save_as (i + 1) st)
    (lstm_init cfg p0)

/-- `run_lstm(model, train_set, test_set, n_epochs, batch_size, device,
save_as)`: the epoch loop.  Its `batch_size` parameter is bound but never
read — both `DataLoader` calls reference the module-level global
`BATCH_SIZE` (`gBATCH`, defined only when the script runs as `__main__`;
when absent, the first epoch raises an uncaught `NameError`).  The Python
return value is the pair of histories of the final state; the rest of the
state records the call's effects (parameter updates, checkpoint writes). -/
def run_lstm {P O S : Type} (gBATCH : Option ℕ) (cfg : LoopCfg P O S)
    (train_set test_set : List S) (n_epochs batch_size : ℕ)
    (save_as : String) (p0 : P) : PyResult (RunState P O) :=
  match gBATCH with
  | none => .raised "NameError"
  | some g => .ok (lstm_run g cfg train_set test_set save_as p0 n_epochs)

/-- The tabular file `plot_history` produces, at the interface of the
data frame handed to the external csv writer: target path, the named
columns, and the rows of (training, testing) values. -/
structure CsvWrite : Type where
  path : String
  columns : List String
  rows : List (ℚ × ℚ)

/-- `plot_history(train_losses, n_train, test_losses, n_test, save_as)`:
builds a data frame from `list(zip(train_losses, test_losses))` with
columns `['training', 'testing']`, divides the training column by
`n_train` and the testing column by `n_test` (average error per item), and
writes it to `save_as + '.csv'`.  The rendered `.png` chart and pandas'
own serialization are external reporting collaborators and are not
modelled. -/
def plot_history (train_losses : List ℚ) (n_train : ℕ)
    (test_losses : List ℚ) (n_test : ℕ) (save_as : String) : CsvWrite :=
  ⟨save_as ++ ".csv", ["training", "testing"],
    (train_losses.zip test_losses).map fun p =>
      (p.1 / (n_train : ℚ), p.2 / (n_test : ℚ))⟩

/-! ### Helper lemmas -/

theorem encode_length {vocab : List Char} :
    ∀ {seq : List Char} {tok : List ℕ}, encode vocab seq = some tok →
      tok.length = seq.length := by
  intro seq
  induction seq with
  | nil => intro tok h; simp [encode] at h; simp [← h]
  | cons c cs ih =>
    intro tok h
    simp only [encode] at h
    cases h1 : tokenId vocab c with
    | none => rw [h1] at h; simp at h
    | some t =>
      rw [h1] at h
      cases h2 : encode vocab cs with
      | none => rw [h2] at h; simp at h
      | some ts =>
        rw [h2] at h
        simp at h
        simp [← h, ih h2]

theorem tokenId_isSome_of_mem {vocab : List Char} {c : Char} (h : c ∈ vocab) :
    ∃ n, tokenId vocab c = some n := by
  induction vocab with
  | nil => simp at h
  | cons v vs ih =>
    by_cases hc : c = v
    · exact ⟨0, by simp [tokenId, hc]⟩
    · rcases List.mem_cons.mp h with h1 | h1
      · exact absurd h1 hc
      · rcases ih h1 with ⟨n, hn⟩
        exact ⟨n + 1, by simp [tokenId, hc, hn]⟩

theorem encode_isSome_of_mem {vocab : List Char} :
    ∀ {seq : List Char}, (∀ c ∈ seq, c ∈ vocab) →
      ∃ tok, encode vocab seq = some tok := by
  intro seq
  induction seq with
  | nil => intro _; exact ⟨[], rfl⟩
  | cons c cs ih =>
    intro h
    rcases tokenId_isSome_of_mem (h c (by simp)) with ⟨n, hn⟩
    rcases ih (fun x hx => h x (by simp [hx])) with ⟨ts, hts⟩
    exact ⟨n :: ts, by simp [encode, hn, hts]⟩

theorem padded_token_length {max_len seqLen : ℕ} {tok : List ℕ}
    (h1 : tok.length = seqLen) (h2 : seqLen ≤ max_len) :
    (padded_token max_len seqLen tok).length = max_len := by
  simp [padded_token, h1]
  omega

theorem squeezeList_length (ts : List Tensor) :
    (squeezeList ts).length = ts.length := by
  induction ts with
  | nil => rfl
  | cons t tl ih => simp [squeezeList, ih]

theorem squeeze_stack_of_ne_one {ts : List Tensor} (h : ts.length ≠ 1) :
    squeeze (.stack ts) = .stack (squeezeList ts) := by
  match ts with
  | [] => rfl
  | [t] => exact absurd rfl h
  | t1 :: t2 :: tl => rfl

theorem leadingDim_stack (ts : List Tensor) :
    leadingDim (.stack ts) = ts.length := by
  match ts with
  | [] => rfl
  | t :: tl => simp [leadingDim, tshape]

theorem indicatorRow_length (C v : ℕ) : (indicatorRow C v).length = C := by
  simp [indicatorRow]

theorem indicatorRow_count_of_lt {C v : ℕ} (h : v < C) :
    (indicatorRow C v).count 1 = 1 := by
  induction C with
  | zero => omega
  | succ n ih =>
    have hrange : List.range (n + 1) = List.range n ++ [n] := by
      rw [List.range_succ]
    simp only [indicatorRow, hrange, List.map_append, List.count_append,
      List.map_cons, List.map_nil]
    by_cases hv : v = n
    · have h0 : (List.map (fun j => if v = j then (1:ℚ) else 0)
          (List.range n)).count 1 = 0 := by
        rw [List.count_eq_zero]
        intro hmem
        rcases List.mem_map.mp hmem with ⟨j, hj, hval⟩
        rw [List.mem_range] at hj
        have hne : v ≠ j := by omega
        rw [if_neg hne] at hval
        exact absurd hval (by norm_num)
      rw [h0, if_pos hv]
      decide
    · have hv2 : v < n := by omega
      have h1 := ih hv2
      simp only [indicatorRow] at h1
      rw [h1, if_neg hv]
      decide

theorem indicatorRow_mem_01 {C v : ℕ} {x : ℚ} (h : x ∈ indicatorRow C v) :
    x = 0 ∨ x = 1 := by
  rcases List.mem_map.mp h with ⟨j, _, hval⟩
  by_cases hj : v = j
  · right; rw [if_pos hj] at hval; exact hval.symm
  · left; rw [if_neg hj] at hval; exact hval.symm

theorem mem_le_foldr_max {v : ℕ} : ∀ {row : List ℕ}, v ∈ row →
    v ≤ row.foldr max 0 := by
  intro row
  induction row with
  | nil => intro h; simp at h
  | cons a tl ih =>
    intro h
    rcases List.mem_cons.mp h with h1 | h1
    · simp [h1, List.foldr_cons]
    · have := ih h1
      simp [List.foldr_cons]
      omega

theorem lt_numClasses_of_mem {row : List ℕ} {v : ℕ} (h : v ∈ row) :
    v < numClasses [row] := by
  have := mem_le_foldr_max h
  simp [numClasses]
  omega

theorem zip_getElem? {α β : Type} :
    ∀ (l1 : List α) (l2 : List β) (i : ℕ) (a : α) (b : β),
      l1[i]? = some a → l2[i]? = some b →
      (l1.zip l2)[i]? = some (a, b) := by
  intro l1
  induction l1 with
  | nil => intro l2 i a b h1 _; simp at h1
  | cons x tl ih =>
    intro l2 i a b h1 h2
    cases l2 with
    | nil => simp at h2
    | cons y tl2 =>
      cases i with
      | zero =>
        simp at h1 h2
        simp [List.zip_cons_cons, h1, h2]
      | succ n =>
        simp at h1 h2
        simpa [List.zip_cons_cons] using ih tl2 n a b h1 h2

theorem embed_one_hot_ok {vocab : List Char} {max_len : ℕ} {seq : List Char}
    {tok : List ℕ} (h1 : encode vocab seq = some tok)
    (h2 : seq.length ≤ max_len) :
    embed_one_hot vocab max_len seq =
      ⟨[], [], .ok (oneHotTensor [padded_token max_len seq.length tok])⟩ := by
  have hc : ¬ ((max_len : ℤ) - (seq.length : ℤ) < 0) := by omega
  simp [embed_one_hot, h1, hc]

theorem embed_tape_ok {hidden : ℕ} {f : ℕ → ℕ → ℚ} {vocab : List Char}
    {max_len : ℕ} {seq : List Char} {tok : List ℕ}
    (h1 : encode vocab seq = some tok) (h2 : seq.length ≤ max_len) :
    embed_tape hidden f vocab max_len seq =
      ⟨[], [],
        .ok (squeeze (tape_model hidden f [padded_token max_len seq.length tok]))⟩ := by
  have hc : ¬ ((max_len : ℤ) - (seq.length : ℤ) < 0) := by omega
  simp [embed_tape, h1, hc]

theorem squeeze_stack_singleton (t : Tensor) : squeeze (.stack [t]) = squeeze t := rfl

theorem leadingDim_squeeze_tape {hidden : ℕ} {f : ℕ → ℕ → ℚ}
    {padded : List ℕ} (h : padded.length ≠ 1) :
    leadingDim (squeeze (tape_model hidden f [padded])) = padded.length := by
  have h1 : tape_model hidden f [padded] =
      .stack [.stack ((List.range padded.length).map fun i =>
        .stack ((List.range hidden).map fun j => .scalar (f i j)))] := by
    simp [tape_model]
  have hlen : ((List.range padded.length).map fun i =>
      Tensor.stack ((List.range hidden).map fun j => Tensor.scalar (f i j))).length
      = padded.length := by simp
  rw [h1, squeeze_stack_singleton, squeeze_stack_of_ne_one (by rw [hlen]; exact h),
    leadingDim_stack, squeezeList_length, hlen]

theorem tshape_indicator_stack {C v : ℕ} (hC : 0 < C) :
    tshape (.stack ((indicatorRow C v).map Tensor.scalar)) = [C] := by
  have hl := indicatorRow_length C v
  cases hrow : indicatorRow C v with
  | nil => rw [hrow] at hl; simp at hl; omega
  | cons x rest =>
    rw [hrow] at hl
    simp at hl
    simp [tshape]
    omega

theorem tshape_oneHot_cons {v : ℕ} {tl : List ℕ} :
    tshape (oneHotTensor [v :: tl]) = [1, tl.length + 1, numClasses [v :: tl]] := by
  have hC : 0 < numClasses [v :: tl] := by simp [numClasses]
  simp only [oneHotTensor, List.map_cons, List.map_nil, tshape, List.length_nil,
    List.length_map]
  rw [tshape_indicator_stack hC]

theorem leadingDim_oneHot {tss : List (List ℕ)} :
    leadingDim (oneHotTensor tss) = tss.length := by
  simp only [oneHotTensor]
  rw [leadingDim_stack, List.length_map]

/-! ### Claims -/

/-- Claim C1, counterexample: with vocabulary `{A, B}`, `max_length = 3`
and the sequence `"AB"` (whose length 2 is at most `max_length`), the
one-hot strategy returns its tensor without squeezing, so the leading
dimension is the batch axis of size 1, not `max_length = 3`. -/
theorem one_hot_leading_dim_cex :
    (['A', 'B'] : List Char).length ≤ 3 ∧
    (embed_one_hot ['A', 'B'] 3 ['A', 'B']).result =
      PyResult.ok (oneHotTensor [[0, 1, 0]]) ∧
    leadingDim (oneHotTensor [[0, 1, 0]]) ≠ 3 :=
  ⟨by decide, rfl, by decide⟩

/-- Claim C1, amended: for a sequence that tokenizes (one id per
character) with `len(seq) ≤ max_length` and `max_length ≠ 1`, the TAPE
strategy returns a tensor whose leading dimension is `max_length` (the
batch axis of size 1 is squeezed away), while the one-hot strategy returns
a tensor whose leading dimension is the unsqueezed batch axis of size 1
and whose second (sequence-position) dimension is `max_length`. -/
theorem embed_leading_dims (hidden : ℕ) (f : ℕ → ℕ → ℚ) (vocab : List Char)
    (max_len : ℕ) (seq : List Char) (tok : List ℕ)
    (h1 : encode vocab seq = some tok) (h2 : seq.length ≤ max_len)
    (h3 : max_len ≠ 1) :
    ((embed_tape hidden f vocab max_len seq).result =
        PyResult.ok (squeeze (tape_model hidden f [padded_token max_len seq.length tok])) ∧
      leadingDim (squeeze (tape_model hidden f [padded_token max_len seq.length tok]))
        = max_len) ∧
    ((embed_one_hot vocab max_len seq).result =
        PyResult.ok (oneHotTensor [padded_token max_len seq.length tok]) ∧
      leadingDim (oneHotTensor [padded_token max_len seq.length tok]) = 1 ∧
      (tshape (oneHotTensor [padded_token max_len seq.length tok]))[1]?
        = some max_len) := by
  have hplen : (padded_token max_len seq.length tok).length = max_len :=
    padded_token_length (encode_length h1) h2
  refine ⟨⟨by rw [embed_tape_ok h1 h2], ?_⟩, by rw [embed_one_hot_ok h1 h2], ?_, ?_⟩
  · rw [leadingDim_squeeze_tape (by rw [hplen]; exact h3), hplen]
  · rw [leadingDim_oneHot]
    rfl
  · cases hp : padded_token max_len seq.length tok with
    | nil =>
      rw [hp] at hplen
      simp at hplen
      rw [← hplen]
      rfl
    | cons v tl =>
      rw [hp] at hplen
      rw [tshape_oneHot_cons]
      simp at hplen
      simp [hplen]

/-- Claim C1, witness for the amended theorem at vocabulary `{A, B}`,
hidden size 2, `max_length = 3`, sequence `"AB"`. -/
theorem embed_leading_dims_witness :
    ((embed_tape 2 (fun _ _ => 0) ['A', 'B'] 3 ['A', 'B']).result =
        PyResult.ok (squeeze (tape_model 2 (fun _ _ => 0)
          [padded_token 3 (['A', 'B'] : List Char).length [0, 1]])) ∧
      leadingDim (squeeze (tape_model 2 (fun _ _ => 0)
        [padded_token 3 (['A', 'B'] : List Char).length [0, 1]])) = 3) ∧
    ((embed_one_hot ['A', 'B'] 3 ['A', 'B']).result =
        PyResult.ok (oneHotTensor [padded_token 3 (['A', 'B'] : List Char).length [0, 1]]) ∧
      leadingDim (oneHotTensor [padded_token 3 (['A', 'B'] : List Char).length [0, 1]]) = 1 ∧
      (tshape (oneHotTensor [padded_token 3 (['A', 'B'] : List Char).length [0, 1]]))[1]?
        = some 3) :=
  embed_leading_dims 2 (fun _ _ => 0) ['A', 'B'] 3 ['A', 'B'] [0, 1]
    (by decide) (by decide) (by decide)

/-- Claim C3, counterexample: with vocabulary `{A, B, C}` (size 3),
`max_length = 3` and the sequence `"A"`, the one-hot output has shape
`[1, 3, 1]` — a leading batch axis of size 1, and a class dimension of
size `max,token,id + 1 = 1` (inferred from the data by
`nn.functional.one_hot` without `num_classes`), not the vocabulary
size — so it is not of shape `[max_length, vocabulary_size] = [3, 3]`. -/
theorem one_hot_shape_cex :
    (embed_one_hot ['A', 'B', 'C'] 3 ['A']).result =
      PyResult.ok (oneHotTensor [[0, 0, 0]]) ∧
    tshape (oneHotTensor [[0, 0, 0]]) = [1, 3, 1] ∧
    [1, 3, 1] ≠ [3, (['A', 'B', 'C'] : List Char).length] :=
  ⟨rfl, by decide, by decide⟩

/-- Claim C3, amended: for a sequence that tokenizes with
`len(seq) ≤ max_length` and `0 < max_length`, the one-hot strategy returns
a 0/1 indicator tensor of shape `[1, max_length, m + 1]`, where `m` is the
largest id among the padded tokens (not the vocabulary size), and each
position's row along the class dimension is a unit vector: exactly one
entry equal to 1 and all other entries 0. -/
theorem one_hot_indicator (vocab : List Char) (max_len : ℕ) (seq : List Char)
    (tok : List ℕ) (h1 : encode vocab seq = some tok)
    (h2 : seq.length ≤ max_len) (h3 : 0 < max_len) :
    embed_one_hot vocab max_len seq =
      ⟨[], [], PyResult.ok (oneHotTensor [padded_token max_len seq.length tok])⟩ ∧
    (padded_token max_len seq.length tok).length = max_len ∧
    tshape (oneHotTensor [padded_token max_len seq.length tok]) =
      [1, max_len, numClasses [padded_token max_len seq.length tok]] ∧
    ∀ v ∈ padded_token max_len seq.length tok,
      v < numClasses [padded_token max_len seq.length tok] ∧
      (indicatorRow (numClasses [padded_token max_len seq.length tok]) v).length =
        numClasses [padded_token max_len seq.length tok] ∧
      (indicatorRow (numClasses [padded_token max_len seq.length tok]) v).count 1 = 1 ∧
      ∀ x ∈ indicatorRow (numClasses [padded_token max_len seq.length tok]) v,
        x = 0 ∨ x = 1 := by
  have hplen : (padded_token max_len seq.length tok).length = max_len :=
    padded_token_length (encode_length h1) h2
  refine ⟨embed_one_hot_ok h1 h2, hplen, ?_, ?_⟩
  · cases hp : padded_token max_len seq.length tok with
    | nil => rw [hp] at hplen; simp at hplen; omega
    | cons v tl =>
      rw [hp] at hplen
      simp at hplen
      rw [tshape_oneHot_cons, hplen]
  · intro v hv
    have hvC := lt_numClasses_of_mem hv
    exact ⟨hvC, indicatorRow_length _ v, indicatorRow_count_of_lt hvC,
      fun x hx => indicatorRow_mem_01 hx⟩

/-- Claim C3, witness for the amended theorem at vocabulary `{A, B}`,
`max_length = 2`, sequence `"AB"` (padded ids `[0, 1]`, class count 2):
the output record, the class bound, and the unit-vector property of the
position holding token id 1. -/
theorem one_hot_indicator_witness :
    embed_one_hot ['A', 'B'] 2 ['A', 'B'] =
      ⟨[], [], PyResult.ok (oneHotTensor [[0, 1]])⟩ ∧
    (1 : ℕ) < numClasses [[0, 1]] ∧
    (indicatorRow (numClasses [[0, 1]]) 1).count 1 = 1 := by
  have h := one_hot_indicator ['A', 'B'] 2 ['A', 'B'] [0, 1]
    (by decide) (by decide) (by decide)
  have hm : (1 : ℕ) ∈ padded_token 2 (['A', 'B'] : List Char).length [0, 1] := by decide
  exact ⟨h.1, (h.2.2.2 1 hm).1, (h.2.2.2 1 hm).2.2.1⟩

/-- Claim C4: a sequence with an untokenizable character makes
`tape_tokenizer.encode` raise `KeyError` before the `try` block is
entered, so the exception propagates uncaught: nothing is printed to the
error stream and the process is not exited at the point of detection —
the `except KeyError` handler (log `Unknown key`, `sys.exit(1)`) is dead
code, contradicting the claimed log-and-abort behaviour. -/
theorem one_hot_tokenize_uncaught (vocab : List Char) (max_len : ℕ)
    (seq : List Char) (h : encode vocab seq = none) :
    embed_one_hot vocab max_len seq = ⟨[], [], PyResult.raised "KeyError"⟩ ∧
    (embed_one_hot vocab max_len seq).stderr = [] ∧
    ∀ c, (embed_one_hot vocab max_len seq).result ≠ PyResult.exited c := by
  have he : embed_one_hot vocab max_len seq = ⟨[], [], PyResult.raised "KeyError"⟩ := by
    simp [embed_one_hot, h]
  refine ⟨he, by rw [he], ?_⟩
  intro c hc
  rw [he] at hc
  exact PyResult.noConfusion hc

/-- Claim C4, witness: the sequence `"Z"` over vocabulary `{A}`. -/
theorem one_hot_tokenize_uncaught_witness :
    embed_one_hot ['A'] 5 ['Z'] = ⟨[], [], PyResult.raised "KeyError"⟩ ∧
    (embed_one_hot ['A'] 5 ['Z']).stderr = [] ∧
    ∀ c, (embed_one_hot ['A'] 5 ['Z']).result ≠ PyResult.exited c :=
  one_hot_tokenize_uncaught ['A'] 5 ['Z'] (by decide)

/-- Claim C9: in the TAPE path, when the computed pad length
`max_len - len(seq)` is negative so that `np.pad` raises `ValueError`,
the handler prints `len(_token)`, `len(seq)` and `_token` to standard
output only (stderr stays empty), the process is not terminated at the
point of detection, and no tensor is produced: control continues past the
`except` block with the local `token` never assigned, so the call ends in
an uncaught `UnboundLocalError`. -/
theorem tape_pad_failure (hidden : ℕ) (f : ℕ → ℕ → ℚ) (vocab : List Char)
    (max_len : ℕ) (seq : List Char) (tok : List ℕ)
    (h1 : encode vocab seq = some tok) (h2 : max_len < seq.length) :
    embed_tape hidden f vocab max_len seq =
      ⟨[toString tok.length, toString seq.length, toString tok], [],
        PyResult.raised "UnboundLocalError"⟩ ∧
    (embed_tape hidden f vocab max_len seq).stderr = [] ∧
    (∀ c, (embed_tape hidden f vocab max_len seq).result ≠ PyResult.exited c) ∧
    ∀ t, (embed_tape hidden f vocab max_len seq).result ≠ PyResult.ok t := by
  have hc : (max_len : ℤ) - (seq.length : ℤ) < 0 := by omega
  have he : embed_tape hidden f vocab max_len seq =
      ⟨[toString tok.length, toString seq.length, toString tok], [],
        PyResult.raised "UnboundLocalError"⟩ := by
    simp [embed_tape, h1, hc]
  refine ⟨he, by rw [he], ?_, ?_⟩
  · intro c hcx
    rw [he] at hcx
    exact PyResult.noConfusion hcx
  · intro t ht
    rw [he] at ht
    exact PyResult.noConfusion ht

/-- Claim C9, witness: vocabulary `{A}`, `max_length = 1`, sequence
`"AA"` of length 2 (pad length −1). -/
theorem tape_pad_failure_witness :
    embed_tape 1 (fun _ _ => 0) ['A'] 1 ['A', 'A'] =
      ⟨[toString (([0, 0] : List ℕ)).length, toString ((['A', 'A'] : List Char)).length,
        toString ([0, 0] : List ℕ)], [], PyResult.raised "UnboundLocalError"⟩ ∧
    (embed_tape 1 (fun _ _ => 0) ['A'] 1 ['A', 'A']).stderr = [] ∧
    (∀ c, (embed_tape 1 (fun _ _ => 0) ['A'] 1 ['A', 'A']).result ≠ PyResult.exited c) ∧
    ∀ t, (embed_tape 1 (fun _ _ => 0) ['A'] 1 ['A', 'A']).result ≠ PyResult.ok t :=
  tape_pad_failure 1 (fun _ _ => 0) ['A'] 1 ['A', 'A'] [0, 0] (by decide) (by decide)

/-- Claim C5: for an index at least the dataset length, `__getitem__`
hits `IndexError` on the list access, prints the diagnostic — which
contains both the requested index and the dataset length — to the error
stream, and terminates the process with `sys.exit(1)` (non-zero). -/
theorem getitem_out_of_range (ds : AlphpaSeqDataset) (idx : ℤ)
    (h1 : ds.seqs.length = ds.labels.length)
    (h2 : (ds.labels.length : ℤ) ≤ idx) :
    ds.getitem idx = ⟨[], [indexErrLine idx ds.labels.length], PyResult.exited 1⟩ ∧
    (1 : ℕ) ≠ 0 ∧
    ∃ pre mid post, indexErrLine idx ds.labels.length =
      pre ++ toString idx ++ mid ++ toString ds.labels.length ++ post := by
  have h0 : (0 : ℤ) ≤ idx := le_trans (Int.natCast_nonneg _) h2
  have hlen : ds.seqs.length ≤ idx.toNat := by omega
  have hnone : pyIndex ds.seqs idx = none := by
    unfold pyIndex
    rw [if_pos h0]
    exact List.get?_eq_none.mpr hlen
  refine ⟨by simp [AlphpaSeqDataset.getitem, hnone], by decide,
    "List index out of range: ", ", length: ", ".", rfl⟩

/-- Claim C5, witness: index 5 on a one-sample dataset. -/
theorem getitem_out_of_range_witness :
    AlphpaSeqDataset.getitem
        ⟨["a"], [['A']], [1], 1, ⟨Method.one_hot, 0, fun _ _ => 0, ['A']⟩⟩ 5 =
      ⟨[], [indexErrLine 5 1], PyResult.exited 1⟩ ∧
    (1 : ℕ) ≠ 0 ∧
    ∃ pre mid post, indexErrLine 5 1 =
      pre ++ toString (5 : ℤ) ++ mid ++ toString (1 : ℕ) ++ post :=
  getitem_out_of_range
    ⟨["a"], [['A']], [1], 1, ⟨Method.one_hot, 0, fun _ _ => 0, ['A']⟩⟩ 5
    (by decide) (by decide)

/-- Claim C10: a negative in-range index does not terminate the process:
Python list indexing resolves it to position `len + idx` without raising
`IndexError`, so `__getitem__` returns the (identifier, features, target)
triple of that position. -/
theorem getitem_negative_index (ds : AlphpaSeqDataset) (idx : ℤ)
    (seq : List Char) (tok : List ℕ) (lab : String) (ka : ℚ)
    (h1 : idx < 0) (h2 : (0 : ℤ) ≤ idx + ds.labels.length)
    (h3 : ds.seqs.length = ds.labels.length)
    (h4 : ds.log10_ka.length = ds.labels.length)
    (h5 : ds.transformer.method = Method.one_hot)
    (h6 : ds.seqs.get? (idx + (ds.labels.length : ℤ)).toNat = some seq)
    (h7 : ds.labels.get? (idx + (ds.labels.length : ℤ)).toNat = some lab)
    (h8 : ds.log10_ka.get? (idx + (ds.labels.length : ℤ)).toNat = some ka)
    (h9 : encode ds.transformer.vocab seq = some tok)
    (h10 : seq.length ≤ ds.longest_seq) :
    ds.getitem idx =
      ⟨[], [], PyResult.ok
        (lab, oneHotTensor [padded_token ds.longest_seq seq.length tok], ka)⟩ ∧
    ∀ c, (ds.getitem idx).result ≠ PyResult.exited c := by
  have hneg : ¬ ((0 : ℤ) ≤ idx) := by omega
  have hseq : pyIndex ds.seqs idx = some seq := by
    unfold pyIndex
    rw [if_neg hneg, h3, if_pos h2]
    exact h6
  have hlab : pyIndex ds.labels idx = some lab := by
    unfold pyIndex
    rw [if_neg hneg, if_pos h2]
    exact h7
  have hka : pyIndex ds.log10_ka idx = some ka := by
    unfold pyIndex
    rw [if_neg hneg, h4, if_pos h2]
    exact h8
  have hemb : ds.transformer.embed ds.longest_seq seq =
      ⟨[], [], PyResult.ok (oneHotTensor [padded_token ds.longest_seq seq.length tok])⟩ := by
    unfold Transformer.embed
    rw [h5]
    exact embed_one_hot_ok h9 h10
  have hrec : ds.getitem idx =
      ⟨[], [], PyResult.ok
        (lab, oneHotTensor [padded_token ds.longest_seq seq.length tok], ka)⟩ := by
    simp [AlphpaSeqDataset.getitem, hseq, hemb, hlab, hka]
  refine ⟨hrec, ?_⟩
  intro c hc
  rw [hrec] at hc
  exact PyResult.noConfusion hc

/-- Claim C10, witness: index −1 on a two-sample dataset returns the
second sample. -/
theorem getitem_negative_index_witness :
    AlphpaSeqDataset.getitem
        ⟨["x", "y"], [['A'], ['B']], [1, 2], 1,
          ⟨Method.one_hot, 0, fun _ _ => 0, ['A', 'B']⟩⟩ (-1) =
      ⟨[], [], PyResult.ok
        ("y", oneHotTensor [padded_token 1 (['B'] : List Char).length [1]], 2)⟩ ∧
    ∀ c, (AlphpaSeqDataset.getitem
        ⟨["x", "y"], [['A'], ['B']], [1, 2], 1,
          ⟨Method.one_hot, 0, fun _ _ => 0, ['A', 'B']⟩⟩ (-1)).result ≠
      PyResult.exited c :=
  getitem_negative_index
    ⟨["x", "y"], [['A'], ['B']], [1, 2], 1,
      ⟨Method.one_hot, 0, fun _ _ => 0, ['A', 'B']⟩⟩ (-1) ['B'] [1] "y" 2
    (by decide) (by decide) (by decide) (by decide) (by decide)
    (by decide) (by decide) (by decide) (by decide) (by decide)

theorem test_pass_params_opt {P O S : Type} (cfg : LoopCfg P O S) :
    ∀ (bs : List (List S)) (v : EpochVars P O),
      (test_pass cfg v bs).params = v.params ∧ (test_pass cfg v bs).opt = v.opt := by
  intro bs
  induction bs with
  | nil => intro v; exact ⟨rfl, rfl⟩
  | cons b tl ih =>
    intro v
    have h1 := ih (test_batch_body cfg v b)
    have hstep : test_pass cfg v (b :: tl) = test_pass cfg (test_batch_body cfg v b) tl := rfl
    rw [hstep]
    exact ⟨h1.1.trans rfl, h1.2.trans rfl⟩

/-- Claim C6: the test pass of an epoch modifies neither the model
parameters nor the optimizer state (its batch loop only accumulates
`test_loss` under `torch.no_grad()`), so the parameters `runEpoch` ends
with are exactly those produced by the training pass. -/
theorem run_lstm_test_frame {P O S : Type} (cfg : LoopCfg P O S) :
    (∀ (v : EpochVars P O) (bs : List (List S)),
      (test_pass cfg v bs).params = v.params ∧ (test_pass cfg v bs).opt = v.opt) ∧
    ∀ (g : ℕ) (train_set test_set : List S) (save_as : String) (epoch : ℕ)
      (st : RunState P O),
      (runEpoch g cfg train_set test_set save_as epoch st).params =
        ((train_batches g cfg train_set epoch).foldl (train_batch_body cfg)
          ⟨st.params, st.opt, 0, 0⟩).params ∧
      (runEpoch g cfg train_set test_set save_as epoch st).opt =
        ((train_batches g cfg train_set epoch).foldl (train_batch_body cfg)
          ⟨st.params, st.opt, 0, 0⟩).opt := by
  refine ⟨fun v bs => test_pass_params_opt cfg bs v, ?_⟩
  intro g train_set test_set save_as epoch st
  exact ⟨(test_pass_params_opt cfg (test_batches g cfg test_set epoch) _).1,
    (test_pass_params_opt cfg (test_batches g cfg test_set epoch) _).2⟩

theorem lstm_run_succ {P O S : Type} (g : ℕ) (cfg : LoopCfg P O S)
    (train_set test_set : List S) (save_as : String) (p0 : P) (n : ℕ) :
    lstm_run g cfg train_set test_set save_as p0 (n + 1) =
      runEpoch g cfg train_set test_set save_as (n + 1)
        (lstm_run g cfg train_set test_set save_as p0 n) := by
  unfold lstm_run
  rw [List.range_succ, List.foldl_append]
  rfl

theorem runEpoch_writes {P O S : Type} (g : ℕ) (cfg : LoopCfg P O S)
    (train_set test_set : List S) (save_as : String) (epoch : ℕ)
    (st : RunState P O) :
    (runEpoch g cfg train_set test_set save_as epoch st).writes =
      st.writes ++ [save_model
        (runEpoch g cfg train_set test_set save_as epoch st).params
        (runEpoch g cfg train_set test_set save_as epoch st).opt
        epoch (save_as ++ ".model_save")] := rfl

theorem lstm_run_writes_length {P O S : Type} (g : ℕ) (cfg : LoopCfg P O S)
    (train_set test_set : List S) (save_as : String) (p0 : P) (n : ℕ) :
    (lstm_run g cfg train_set test_set save_as p0 n).writes.length = n := by
  induction n with
  | zero => rfl
  | succ k ih =>
    rw [lstm_run_succ, runEpoch_writes, List.length_append, ih]
    rfl

theorem lstm_run_writes_mono {P O S : Type} (g : ℕ) (cfg : LoopCfg P O S)
    (train_set test_set : List S) (save_as : String) (p0 : P) (m n : ℕ)
    (h : m ≤ n) :
    ∃ suf, (lstm_run g cfg train_set test_set save_as p0 n).writes =
      (lstm_run g cfg train_set test_set save_as p0 m).writes ++ suf := by
  induction n with
  | zero =>
    have hm : m = 0 := by omega
    subst hm
    exact ⟨[], by simp⟩
  | succ k ih =>
    by_cases hm : m = k + 1
    · subst hm
      exact ⟨[], by simp⟩
    · rcases ih (by omega) with ⟨suf, hs⟩
      refine ⟨suf ++ [save_model
        (lstm_run g cfg train_set test_set save_as p0 (k + 1)).params
        (lstm_run g cfg train_set test_set save_as p0 (k + 1)).opt
        (k + 1) (save_as ++ ".model_save")], ?_⟩
      rw [lstm_run_succ, runEpoch_writes, hs, List.append_assoc]

theorem lstm_run_writes_path {P O S : Type} (g : ℕ) (cfg : LoopCfg P O S)
    (train_set test_set : List S) (save_as : String) (p0 : P) (n : ℕ) :
    ∀ w ∈ (lstm_run g cfg train_set test_set save_as p0 n).writes,
      w.path = save_as ++ ".model_save" := by
  induction n with
  | zero =>
    intro w hw
    rw [show (lstm_run g cfg train_set test_set save_as p0 0).writes = [] from rfl] at hw
    exact absurd hw (List.not_mem_nil w)
  | succ m ih =>
    intro w hw
    rw [lstm_run_succ, runEpoch_writes] at hw
    rcases List.mem_append.mp hw with h | h
    · exact ih w h
    · rw [List.mem_singleton] at h
      rw [h]
      rfl

/-- Claim C7: after every epoch `k` (1 ≤ k ≤ n_epochs) of `run_lstm`, a
checkpoint holding the epoch index `k`, the model parameters and the
optimizer state as they stand at the end of epoch `k` is written,
unconditionally, to the single path `save_as + '.model_save'`: the k-th
write (0-based position k−1) is exactly that checkpoint, there are exactly
`n_epochs` writes in total, and every write targets the same path, so each
overwrites the previous one. -/
theorem run_lstm_checkpoint (P O S : Type) (g : ℕ) (cfg : LoopCfg P O S)
    (train_set test_set : List S) (bs n k : ℕ) (save_as : String) (p0 : P)
    (h1 : 1 ≤ k) (h2 : k ≤ n) :
    run_lstm (some g) cfg train_set test_set n bs save_as p0 =
      PyResult.ok (lstm_run g cfg train_set test_set save_as p0 n) ∧
    (lstm_run g cfg train_set test_set save_as p0 n).writes.length = n ∧
    (lstm_run g cfg train_set test_set save_as p0 n).writes[k - 1]? =
      some (save_model (lstm_run g cfg train_set test_set save_as p0 k).params
        (lstm_run g cfg train_set test_set save_as p0 k).opt k
        (save_as ++ ".model_save")) ∧
    ∀ w ∈ (lstm_run g cfg train_set test_set save_as p0 n).writes,
      w.path = save_as ++ ".model_save" := by
  obtain ⟨j, rfl⟩ : ∃ j, k = j + 1 := ⟨k - 1, by omega⟩
  refine ⟨rfl, lstm_run_writes_length g cfg train_set test_set save_as p0 n,
    ?_, lstm_run_writes_path g cfg train_set test_set save_as p0 n⟩
  have hwk : (lstm_run g cfg train_set test_set save_as p0 (j + 1)).writes =
      (lstm_run g cfg train_set test_set save_as p0 j).writes ++
        [save_model (lstm_run g cfg train_set test_set save_as p0 (j + 1)).params
          (lstm_run g cfg train_set test_set save_as p0 (j + 1)).opt (j + 1)
          (save_as ++ ".model_save")] := by
    rw [lstm_run_succ, runEpoch_writes]
  rcases lstm_run_writes_mono g cfg train_set test_set save_as p0 (j + 1) n h2
    with ⟨suf, hsuf⟩
  have hl : (lstm_run g cfg train_set test_set save_as p0 j).writes.length = j :=
    lstm_run_writes_length g cfg train_set test_set save_as p0 j
  rw [hsuf, hwk, List.append_assoc]
  simp only [Nat.add_sub_cancel]
  rw [List.getElem?_append_right hl.le, hl, Nat.sub_self]
  simp

/-- Claim C7, witness: a two-epoch run over one training sample; the
first checkpoint (position 0) is the epoch-1 state at path
`"m" ++ ".model_save"`. -/
theorem run_lstm_checkpoint_witness :
    run_lstm (some 1) (⟨0, fun p o _ => (p, o), fun _ _ => 1, fun _ _ xs => xs⟩ :
        LoopCfg ℚ ℚ ℕ) [0] [] 2 7 "m" 0 =
      PyResult.ok (lstm_run 1 ⟨0, fun p o _ => (p, o), fun _ _ => 1, fun _ _ xs => xs⟩
        [0] [] "m" 0 2) ∧
    (lstm_run 1 (⟨0, fun p o _ => (p, o), fun _ _ => 1, fun _ _ xs => xs⟩ :
        LoopCfg ℚ ℚ ℕ) [0] [] "m" 0 2).writes.length = 2 ∧
    (lstm_run 1 (⟨0, fun p o _ => (p, o), fun _ _ => 1, fun _ _ xs => xs⟩ :
        LoopCfg ℚ ℚ ℕ) [0] [] "m" 0 2).writes[1 - 1]? =
      some (save_model
        (lstm_run 1 (⟨0, fun p o _ => (p, o), fun _ _ => 1, fun _ _ xs => xs⟩ :
          LoopCfg ℚ ℚ ℕ) [0] [] "m" 0 1).params
        (lstm_run 1 (⟨0, fun p o _ => (p, o), fun _ _ => 1, fun _ _ xs => xs⟩ :
          LoopCfg ℚ ℚ ℕ) [0] [] "m" 0 1).opt 1 ("m" ++ ".model_save")) ∧
    ∀ w ∈ (lstm_run 1 (⟨0, fun p o _ => (p, o), fun _ _ => 1, fun _ _ xs => xs⟩ :
        LoopCfg ℚ ℚ ℕ) [0] [] "m" 0 2).writes, w.path = "m" ++ ".model_save" :=
  run_lstm_checkpoint ℚ ℚ ℕ 1
    ⟨0, fun p o _ => (p, o), fun _ _ => 1, fun _ _ xs => xs⟩
    [0] [] 7 2 1 "m" 0 (by decide) (by decide)

/-- Claim C2: the two `DataLoader`s inside `run_lstm` are built from the
module-level global `BATCH_SIZE`, not from the call's `batch_size`
argument.  Concretely: calling `run_lstm` with `batch_size = 2` on three
training samples while the global is 32 yields a single training batch
(one loss accumulation per epoch, `train_loss_history = [1]` with a
count-the-batches loss), even though chunking by the requested size 2
would give two batches; and when the global is absent (script imported,
not run as `__main__`), the call raises `NameError` regardless of the
`batch_size` argument. -/
theorem run_lstm_global_batch :
    run_lstm (some 32) (⟨0, fun p o _ => (p, o), fun _ _ => 1, fun _ _ xs => xs⟩ :
        LoopCfg ℚ ℚ ℕ) [0, 1, 2] [] 1 2 "m" 0 =
      PyResult.ok (lstm_run 32 ⟨0, fun p o _ => (p, o), fun _ _ => 1, fun _ _ xs => xs⟩
        [0, 1, 2] [] "m" 0 1) ∧
    (lstm_run 32 (⟨0, fun p o _ => (p, o), fun _ _ => 1, fun _ _ xs => xs⟩ :
        LoopCfg ℚ ℚ ℕ) [0, 1, 2] [] "m" 0 1).train_loss_history = [1] ∧
    (chunkList 32 [0, 1, 2]).length = 1 ∧
    (chunkList 2 [0, 1, 2]).length = 2 ∧
    run_lstm none (⟨0, fun p o _ => (p, o), fun _ _ => 1, fun _ _ xs => xs⟩ :
        LoopCfg ℚ ℚ ℕ) [0, 1, 2] [] 1 2 "m" 0 = PyResult.raised "NameError" := by
  refine ⟨rfl, ?_, by decide, by decide, rfl⟩
  show [(0 : ℚ) + 1] = [1]
  norm_num

/-- Claim C8: the tabular loss report of `plot_history` goes to
`save_as + '.csv'` with exactly the two numeric columns `training` and
`testing`, one row per epoch; row `i` holds
`train_losses[i] / n_train` and `test_losses[i] / n_test`. -/
theorem plot_history_csv (train_losses : List ℚ) (n_train : ℕ)
    (test_losses : List ℚ) (n_test : ℕ) (save_as : String) (n : ℕ)
    (h1 : train_losses.length = n) (h2 : test_losses.length = n)
    (h3 : 0 < n_train) (h4 : 0 < n_test) :
    (plot_history train_losses n_train test_losses n_test save_as).path =
      save_as ++ ".csv" ∧
    (plot_history train_losses n_train test_losses n_test save_as).columns =
      ["training", "testing"] ∧
    (plot_history train_losses n_train test_losses n_test save_as).rows.length = n ∧
    ∀ (i : ℕ) (tr te : ℚ), train_losses[i]? = some tr → test_losses[i]? = some te →
      (plot_history train_losses n_train test_losses n_test save_as).rows[i]? =
        some (tr / (n_train : ℚ), te / (n_test : ℚ)) := by
  refine ⟨rfl, rfl, ?_, ?_⟩
  · simp [plot_history, h1, h2]
  · intro i tr te htr hte
    simp only [plot_history, List.getElem?_map,
      zip_getElem? train_losses test_losses i tr te htr hte]
    rfl

/-- Claim C8, witness: summed losses `[4]` (train) and `[6]` (test) over
splits of 2 and 3 samples give one csv row `(4/2, 6/3)`. -/
theorem plot_history_csv_witness :
    (plot_history [4] 2 [6] 3 "m").path = "m" ++ ".csv" ∧
    (plot_history [4] 2 [6] 3 "m").columns = ["training", "testing"] ∧
    (plot_history [4] 2 [6] 3 "m").rows.length = 1 ∧
    (plot_history [4] 2 [6] 3 "m").rows[0]? =
      some ((4 : ℚ) / ((2 : ℕ) : ℚ), (6 : ℚ) / ((3 : ℕ) : ℚ)) := by
  have h := plot_history_csv [4] 2 [6] 3 "m" 1 rfl rfl (by decide) (by decide)
  exact ⟨h.1, h.2.1, h.2.2.1, h.2.2.2 0 4 6 rfl rfl⟩
